import Mathlib

/-!
Verification of the kaepora match-session lifecycle engine and its front-ends.

Shallow embedding of:
- the notification model and the notification-building functions of the `back`
  package part of src/internal/web/templates.go;
- the error-handling and dispatch paths of the Discord bot (src/unnamed/part_001);
- the leaderboard truncation of the web server (src/unnamed/part_000);
- the parts of the session lifecycle whose code is not under src/ (the
  SessionManager state machine, the matchmaker odd-kick, the outcome derivation
  and the leaderboard query of internal/back), modelled from the spec.

Machine times are modelled as integral seconds; wall-clock reads (time.Until)
become an explicit `now` parameter. Ratings are modelled as exact rationals.
-/

namespace Kaepora

/-- Recipient type of an outbound notification
(src/internal/web/templates.go, NotificationRecipientType). -/
inductive NotificationRecipientType where
  | discordChannel
  | discordUser
deriving DecidableEq, Repr

/-- Kind of an outbound notification (src/internal/web/templates.go,
NotificationType, an iota enum in this constructor order). -/
inductive NotificationType where
  | matchSessionStatusUpdate
  | matchSessionCountdown
  | matchSessionEmpty
  | matchSessionOddKick
  | matchSeed
  | matchEnd
deriving DecidableEq, Repr

/-- One formatted element written into a notification body via Printf:
the format string itself or one of its arguments, in write order. -/
inductive BodyPiece where
  | text : String → BodyPiece
  | str : String → BodyPiece
  | nat : Nat → BodyPiece
  | int : Int → BodyPiece
deriving DecidableEq, Repr

/-- An attached file (NotificationFile); the reader payload is abstracted away. -/
structure NotificationFile where
  name : String
  contentType : String
deriving DecidableEq, Repr

/-- An outbound message (Notification in src/internal/web/templates.go). -/
structure Notification where
  recipientType : NotificationRecipientType
  recipient : String
  type : NotificationType
  files : List NotificationFile
  body : List BodyPiece
deriving DecidableEq, Repr

/-- NotificationTypeName (src/internal/web/templates.go lines 233-248). The Go
switch has no case for MatchSessionCountdown, so that value falls through to the
default branch and yields "invalid". -/
def NotificationTypeName : NotificationType → String
  | NotificationType.matchSessionStatusUpdate => "MatchSessionStatusUpdate"
  | NotificationType.matchSessionEmpty => "MatchSessionEmpty"
  | NotificationType.matchSessionOddKick => "MatchSessionOddKick"
  | NotificationType.matchSeed => "MatchSeed"
  | NotificationType.matchEnd => "MatchEnd"
  | NotificationType.matchSessionCountdown => "invalid"

/-- A league configuration, restricted to the fields the embedded functions read. -/
structure League where
  shortCode : String
  announceDiscordChannelID : String
deriving DecidableEq, Repr

/-- A player account, restricted to the fields the embedded functions read. -/
structure Player where
  name : String
  discordID : String
deriving DecidableEq, Repr

/-- Session phase (back.MatchSessionStatus), in the forward order of the spec
and of the matchSessionStatusTag switch in src/internal/web/templates.go. -/
inductive MatchSessionStatus where
  | waiting
  | joinable
  | preparing
  | inProgress
  | closed
deriving DecidableEq, Repr

/-- Rank of a session phase in the forward order. -/
def MatchSessionStatus.toNat : MatchSessionStatus → Nat
  | MatchSessionStatus.waiting => 0
  | MatchSessionStatus.joinable => 1
  | MatchSessionStatus.preparing => 2
  | MatchSessionStatus.inProgress => 3
  | MatchSessionStatus.closed => 4

/-- One scheduled race event (back.MatchSession), restricted to the fields the
embedded functions read; playerIDs is in join order. -/
structure MatchSession where
  leagueID : String
  startDate : Int
  status : MatchSessionStatus
  playerIDs : List String
deriving DecidableEq, Repr

/-- Back.sendOddKickNotification (src/internal/web/templates.go lines 283-297):
an individual Discord-user notification of kind MatchSessionOddKick sent to the
kicked player. -/
def sendOddKickNotification (player : Player) : Notification :=
  { recipientType := NotificationRecipientType.discordUser
    recipient := player.discordID
    type := NotificationType.matchSessionOddKick
    files := []
    body := [BodyPiece.text "Sorry %s, but there was an odd number of players and you were the last person to join.\nYou have been kicked out of the race, don’t worry this won’t affect your ranking.\n",
             BodyPiece.str player.name] }

/-- Back.sendMatchSessionEmptyNotification (src/internal/web/templates.go lines
299-319): a channel notification of kind MatchSessionEmpty sent to the league
announcement channel. The getLeagueByID lookup becomes the league parameter. -/
def sendMatchSessionEmptyNotification (league : League) : Notification :=
  { recipientType := NotificationRecipientType.discordChannel
    recipient := league.announceDiscordChannelID
    type := NotificationType.matchSessionEmpty
    files := []
    body := [BodyPiece.text "The race for league `%s` is closed, you can no longer join.\nThere was not enough players to start the race.\n",
             BodyPiece.str league.shortCode] }

/-- Back.sendSessionStatusUpdateNotification (src/internal/web/templates.go lines
405-458): a channel notification of kind MatchSessionStatusUpdate whose body
depends on the session status; in the Preparing branch the announced contestant
count is len(PlayerIDs) − len(PlayerIDs) mod 2 (line 440). -/
def sendSessionStatusUpdateNotification (league : League) (session : MatchSession) (now : Int) : Notification :=
  { recipientType := NotificationRecipientType.discordChannel
    recipient := league.announceDiscordChannelID
    type := NotificationType.matchSessionStatusUpdate
    files := []
    body :=
      match session.status with
      | MatchSessionStatus.waiting =>
          [BodyPiece.text "The next race for league `%s` has been scheduled for %s (in %s)",
           BodyPiece.str league.shortCode, BodyPiece.int session.startDate,
           BodyPiece.int (session.startDate - now)]
      | MatchSessionStatus.joinable =>
          [BodyPiece.text "The race for league `%s` can now be joined! The race starts at %s (in %s).\nYou can join using `!join %s`.",
           BodyPiece.str league.shortCode, BodyPiece.int session.startDate,
           BodyPiece.int (session.startDate - now), BodyPiece.str league.shortCode]
      | MatchSessionStatus.preparing =>
          [BodyPiece.text "The race for league `%s` has begun preparations, you can no longer join. Seeds will soon be sent to the %d contestants.\nThe race starts at %s (in %s). Watch this channel for the official go.",
           BodyPiece.str league.shortCode,
           BodyPiece.nat (session.playerIDs.length - session.playerIDs.length % 2),
           BodyPiece.int session.startDate, BodyPiece.int (session.startDate - now)]
      | MatchSessionStatus.inProgress =>
          [BodyPiece.text "The race for league `%s` **starts now**. Good luck and have fun! @here",
           BodyPiece.str league.shortCode]
      | MatchSessionStatus.closed =>
          [BodyPiece.text "All players have finished their last `%s` race, rankings have been updated.",
           BodyPiece.str league.shortCode] }

/-- Back.sendSessionCountdownNotification (src/internal/web/templates.go lines
460-486): a channel notification about the remaining time before the race start.
Its Type field is set to NotificationTypeMatchSessionStatusUpdate (line 469), not
to the countdown kind; @here is appended when the rounded delta is exactly one
minute, thirty seconds or five seconds. -/
def sendSessionCountdownNotification (league : League) (session : MatchSession) (now : Int) : Notification :=
  { recipientType := NotificationRecipientType.discordChannel
    recipient := league.announceDiscordChannelID
    type := NotificationType.matchSessionStatusUpdate
    files := []
    body :=
      [BodyPiece.text "The next race for league `%s` starts in %s.",
       BodyPiece.str league.shortCode, BodyPiece.int (session.startDate - now)] ++
      (if session.startDate - now = 60 ∨ session.startDate - now = 30 ∨ session.startDate - now = 5 then
        [BodyPiece.text " @here"]
      else
        []) }

/-- A back/util error as seen by the bot front-end: message text and whether it
matches util.ErrPublic (safe to show to any caller). -/
structure BotError where
  message : String
  isPublic : Bool
deriving DecidableEq, Repr

/-- The accumulated reply buffer of a channelWriter. -/
structure WriterState where
  lines : List String
deriving DecidableEq, Repr

/-- The generic failure line written after Reset in Bot.createWriterAndDispatch
(src/unnamed/part_001 line 199). -/
def genericErrorLine : String := "There was an error processing your command."

/-- The detailed error line appended for public errors and administrators
(src/unnamed/part_001 line 202). -/
def errorDetailLine (err : BotError) : String :=
  "```" ++ err.message ++ "\n```\nIf you need help, send `!help`."

/-- Error path of Bot.createWriterAndDispatch (src/unnamed/part_001 lines
197-206): on a dispatch error the reply buffer is reset to the generic failure
line, and the detailed error is appended when the error is public
(errors.Is(err, util.ErrPublic(""))) or the caller is an administrator. -/
def createWriterAndDispatch (dispatchError : Option BotError) (isAdmin : Bool) (out : WriterState) : WriterState :=
  match dispatchError with
  | none => out
  | some err =>
    let reset : WriterState := { lines := [genericErrorLine] }
    if err.isPublic || isAdmin then { lines := reset.lines ++ [errorDetailLine err] }
    else reset

/-- Result of invoking a command handler: either a normal return after writing
to the reply writer, possibly with an error, or a runtime panic. -/
inductive HandlerResult where
  | normal : WriterState → Option BotError → HandlerResult
  | panicked : String → HandlerResult
deriving Repr

/-- Bot.dispatch (src/unnamed/part_001 lines 210-232). The deferred recover is
modelled by mapping a panicked handler outcome to a reset buffer holding the
generic line of line 215, with no error returned (the recovered function returns
the zero value). Banned callers and unknown commands yield public errors before
any handler runs. -/
def dispatch (banned : Bool) (handler : Option (WriterState → HandlerResult)) (w : WriterState) (content : String) : WriterState × Option BotError :=
  if banned then
    (w, some { message := "your account has been banned", isPublic := true })
  else
    match handler with
    | none => (w, some { message := "invalid command: " ++ content, isPublic := true })
    | some h =>
      match h w with
      | HandlerResult.normal w2 err => (w2, err)
      | HandlerResult.panicked _ => ({ lines := ["Someting went very wrong."] }, none)

/-- Modelled from the spec: the SessionManager state machine of internal/back is
not under src/ (src/internal/web/templates.go only consumes its statuses). Spec
section 4.1: time-triggered transitions in the order
Waiting→Joinable→Preparing→InProgress→Closed, with the single short-circuit
Joinable→Closed when the frozen joined set is empty. The middle index is the
joined set at transition time. -/
inductive SessionStep : MatchSessionStatus → List String → MatchSessionStatus → Prop where
  | toJoinable (ps : List String) :
      SessionStep MatchSessionStatus.waiting ps MatchSessionStatus.joinable
  | toPreparing (ps : List String) (h : ps ≠ []) :
      SessionStep MatchSessionStatus.joinable ps MatchSessionStatus.preparing
  | emptyClose :
      SessionStep MatchSessionStatus.joinable [] MatchSessionStatus.closed
  | toInProgress (ps : List String) :
      SessionStep MatchSessionStatus.preparing ps MatchSessionStatus.inProgress
  | close (ps : List String) :
      SessionStep MatchSessionStatus.inProgress ps MatchSessionStatus.closed

/-- Modelled from the spec: the odd exclusion at the Joinable→Preparing boundary
(the matchmaking code of internal/back is not under src/). If the frozen joined
set has odd size, the last player to join is removed before pairing; the list is
in join order. Returns the pool to pair and the kicked player, if any. -/
def oddKickExcluded (players : List String) : List String × Option String :=
  if players.length % 2 = 1 then (players.dropLast, players.getLast?)
  else (players, none)

/-- Modelled from the spec: the Matchmaker (spec section 4.2) pairs an even-sized
pool into disjoint pairs covering every player exactly once; the per-invocation
shuffle is irrelevant to coverage, so consecutive pairing is used. -/
def pairPlayers : List String → List (String × String)
  | a :: b :: rest => (a, b) :: pairPlayers rest
  | _ => []

/-- Modelled from the spec: the Joinable→Preparing time-triggered boundary of
internal/back (not under src/), spec section 4.1. A session with an empty frozen
joined set short-circuits to Closed and emits only the session-empty
notification; otherwise the session moves to Preparing and emits the preparation
status update plus, for an odd pool, the odd-kick notification to the kicked
player (resolved through the lookup parameter). -/
def prepareSessionStep (league : League) (lookup : String → Player) (session : MatchSession) (now : Int) : MatchSessionStatus × List Notification :=
  if session.playerIDs = [] then
    (MatchSessionStatus.closed, [sendMatchSessionEmptyNotification league])
  else
    (MatchSessionStatus.preparing,
      sendSessionStatusUpdateNotification league { session with status := MatchSessionStatus.preparing } now
        :: ((oddKickExcluded session.playerIDs).2.map (fun k => sendOddKickNotification (lookup k))).toList)

/-- Entry status (back.MatchEntryStatus as consumed by templates.go). -/
inductive MatchEntryStatus where
  | waiting
  | inProgress
  | finished
  | forfeit
deriving DecidableEq, Repr

/-- Entry outcome (back.MatchEntryOutcome as consumed by templates.go). -/
inductive MatchEntryOutcome where
  | win
  | draw
  | loss
deriving DecidableEq, Repr

/-- One player side of a Match (back.MatchEntry), restricted to the fields the
claims read; timestamps in seconds, meaningful once set by the completing
action. -/
structure MatchEntry where
  playerID : String
  status : MatchEntryStatus
  startedAt : Int
  endedAt : Int
deriving DecidableEq, Repr

/-- Terminal entry statuses (Finished or Forfeit). -/
def MatchEntryStatus.isTerminal : MatchEntryStatus → Bool
  | MatchEntryStatus.finished => true
  | MatchEntryStatus.forfeit => true
  | _ => false

/-- Completed race time of an entry, as displayed by sendMatchEndNotification. -/
def raceDuration (e : MatchEntry) : Int := e.endedAt - e.startedAt

/-- Modelled from the spec: the outcome derivation of internal/back (not under
src/) once both entries of a Match are terminal, spec section 4.1
InProgress→Closed: the shorter completed time wins; a forfeiting player always
loses unless both forfeit, which is a draw. -/
def deriveOutcomes (e1 e2 : MatchEntry) : MatchEntryOutcome × MatchEntryOutcome :=
  if e1.status = MatchEntryStatus.forfeit ∧ e2.status = MatchEntryStatus.forfeit then
    (MatchEntryOutcome.draw, MatchEntryOutcome.draw)
  else if e1.status = MatchEntryStatus.forfeit then
    (MatchEntryOutcome.loss, MatchEntryOutcome.win)
  else if e2.status = MatchEntryStatus.forfeit then
    (MatchEntryOutcome.win, MatchEntryOutcome.loss)
  else if raceDuration e1 < raceDuration e2 then
    (MatchEntryOutcome.win, MatchEntryOutcome.loss)
  else if raceDuration e2 < raceDuration e1 then
    (MatchEntryOutcome.loss, MatchEntryOutcome.win)
  else
    (MatchEntryOutcome.draw, MatchEntryOutcome.draw)

/-- One row of a league leaderboard (back.LeaderboardEntry as read by
tplRanking in src/internal/web/templates.go); ratings are exact rationals. -/
structure LeaderboardEntry where
  playerName : String
  rating : Rat
  deviation : Rat
deriving DecidableEq, Repr

/-- Leaderboard sort key: the lower bound rating − 2×deviation of the 95 percent
confidence interval (the same bound tplRanking displays). -/
def lbKey (e : LeaderboardEntry) : Rat := e.rating - 2 * e.deviation

/-- Descending order on the leaderboard sort key. -/
def lbDescending (a b : LeaderboardEntry) : Prop := lbKey b ≤ lbKey a

instance : DecidableRel lbDescending :=
  fun a b => inferInstanceAs (Decidable (lbKey b ≤ lbKey a))

instance : IsTotal LeaderboardEntry lbDescending :=
  ⟨fun a b => le_total (lbKey b) (lbKey a)⟩

instance : IsTrans LeaderboardEntry lbDescending :=
  ⟨fun _ _ _ hab hbc => le_trans hbc hab⟩

/-- Modelled from the spec: GetLeaderboardForLeague of internal/back (not under
src/; getStdTop20 and tplRanking only consume its result), spec sections 4.3 and
6: sorted descending by rating − 2×deviation, and players with deviation ≥
threshold are excluded. -/
def GetLeaderboardForLeague (players : List LeaderboardEntry) (threshold : Rat) : List LeaderboardEntry :=
  List.insertionSort lbDescending (players.filter (fun p => p.deviation < threshold))

/-- Server.getStdTop20 (src/unnamed/part_000 lines 240-254): truncation of the
leaderboard returned by the back end to at most 20 rows; the back-end call is
abstracted as the input list. -/
def getStdTop20 (leaderboard : List LeaderboardEntry) : List LeaderboardEntry :=
  if leaderboard.length > 20 then leaderboard.take 20 else leaderboard

/-- A concrete league used to instantiate general theorems. -/
def sampleLeague : League := { shortCode := "std", announceDiscordChannelID := "chan" }

/-- A concrete player lookup used to instantiate general theorems. -/
def sampleLookup : String → Player := fun id => { name := id, discordID := id }

/-- Helper for proofs: players appearing in a pair produced by pairPlayers come
from the pool. -/
theorem mem_of_mem_pairPlayers (l : List String) (a b : String) (h : (a, b) ∈ pairPlayers l) :
    a ∈ l ∧ b ∈ l := by
  match l with
  | [] => simp [pairPlayers] at h
  | [x] => simp [pairPlayers] at h
  | x :: y :: rest =>
    simp only [pairPlayers, List.mem_cons, Prod.mk.injEq] at h
    rcases h with ⟨ha, hb⟩ | h
    · subst ha; subst hb; simp
    · have ih := mem_of_mem_pairPlayers rest a b h
      exact ⟨List.mem_cons_of_mem _ (List.mem_cons_of_mem _ ih.1),
        List.mem_cons_of_mem _ (List.mem_cons_of_mem _ ih.2)⟩

/-- C1: every transition applied by an operation or by the time-triggered sweep
moves Status strictly forward, and it is either the immediate successor in the
order Waiting, Joinable, Preparing, InProgress, Closed, or the single
empty-session short-circuit from Joinable directly to Closed. -/
theorem sessionStep_monotone_forward (s1 : MatchSessionStatus) (ps : List String)
    (s2 : MatchSessionStatus) (h : SessionStep s1 ps s2) :
    s1.toNat < s2.toNat ∧
      (s2.toNat = s1.toNat + 1 ∨
        (s1 = MatchSessionStatus.joinable ∧ s2 = MatchSessionStatus.closed ∧ ps = [])) := by
  cases h <;> simp [MatchSessionStatus.toNat]

/-- Witness for C1 at the concrete transition Waiting→Joinable. -/
theorem sessionStep_monotone_forward_witness :
    MatchSessionStatus.waiting.toNat < MatchSessionStatus.joinable.toNat ∧
      (MatchSessionStatus.joinable.toNat = MatchSessionStatus.waiting.toNat + 1 ∨
        (MatchSessionStatus.waiting = MatchSessionStatus.joinable ∧
          MatchSessionStatus.joinable = MatchSessionStatus.closed ∧
          (["A"] : List String) = [])) :=
  sessionStep_monotone_forward MatchSessionStatus.waiting ["A"] MatchSessionStatus.joinable
    (SessionStep.toJoinable ["A"])

/-- C2: at the Joinable→Preparing transition with an odd frozen joined set,
exactly the most-recently-joined player is removed before pairing, that player
appears in no pair produced for the session, and the odd-kick notification is
addressed individually to a Discord user with kind MatchSessionOddKick. -/
theorem oddKick_removes_last_never_paired (players : List String) (k : String)
    (hnd : players.Nodup) (hodd : players.length % 2 = 1)
    (hk : (oddKickExcluded players).2 = some k) :
    players.getLast? = some k ∧
      (∀ pr ∈ pairPlayers (oddKickExcluded players).1, pr.1 ≠ k ∧ pr.2 ≠ k) ∧
      (∀ pl : Player,
        (sendOddKickNotification pl).recipientType = NotificationRecipientType.discordUser ∧
          (sendOddKickNotification pl).type = NotificationType.matchSessionOddKick) := by
  have hfst : (oddKickExcluded players).1 = players.dropLast := by
    simp [oddKickExcluded, hodd]
  have hk2 : players.getLast? = some k := by
    simpa [oddKickExcluded, hodd] using hk
  have hsplit : players.dropLast ++ [k] = players :=
    List.dropLast_append_getLast? k (Option.mem_def.mpr hk2)
  have hknot : k ∉ players.dropLast := by
    have hnd2 : (players.dropLast ++ [k]).Nodup := by rw [hsplit]; exact hnd
    rw [List.nodup_append] at hnd2
    intro hmem
    exact hnd2.2.2 hmem (by simp)
  refine ⟨hk2, ?_, fun pl => ⟨rfl, rfl⟩⟩
  intro pr hpr
  rw [hfst] at hpr
  have hm := mem_of_mem_pairPlayers players.dropLast pr.1 pr.2 (by rw [Prod.mk.eta]; exact hpr)
  constructor
  · intro he; exact hknot (he ▸ hm.1)
  · intro he; exact hknot (he ▸ hm.2)

/-- Witness for C2 on the three-player joined set A, B, C: C is kicked. -/
theorem oddKick_removes_last_never_paired_witness :
    (["A", "B", "C"] : List String).getLast? = some "C" ∧
      (∀ pr ∈ pairPlayers (oddKickExcluded ["A", "B", "C"]).1, pr.1 ≠ "C" ∧ pr.2 ≠ "C") ∧
      (∀ pl : Player,
        (sendOddKickNotification pl).recipientType = NotificationRecipientType.discordUser ∧
          (sendOddKickNotification pl).type = NotificationType.matchSessionOddKick) :=
  oddKick_removes_last_never_paired ["A", "B", "C"] "C" (by decide) (by decide) (by decide)

/-- C3: a session whose joined set is empty at the preparation boundary
transitions directly from Joinable to Closed and emits exactly one notification,
the session-empty one, addressed to the league announcement channel; every
emitted notification has the session-empty kind, so no preparation and no
in-progress notification is emitted. -/
theorem emptySession_shortCircuit (league : League) (lookup : String → Player)
    (session : MatchSession) (now : Int)
    (hst : session.status = MatchSessionStatus.joinable)
    (hempty : session.playerIDs = []) :
    (prepareSessionStep league lookup session now).1 = MatchSessionStatus.closed ∧
      SessionStep session.status session.playerIDs (prepareSessionStep league lookup session now).1 ∧
      (prepareSessionStep league lookup session now).2 = [sendMatchSessionEmptyNotification league] ∧
      (sendMatchSessionEmptyNotification league).recipientType = NotificationRecipientType.discordChannel ∧
      (sendMatchSessionEmptyNotification league).recipient = league.announceDiscordChannelID ∧
      (sendMatchSessionEmptyNotification league).type = NotificationType.matchSessionEmpty ∧
      (∀ n ∈ (prepareSessionStep league lookup session now).2,
        n.type = NotificationType.matchSessionEmpty) := by
  have hp : prepareSessionStep league lookup session now =
      (MatchSessionStatus.closed, [sendMatchSessionEmptyNotification league]) := by
    simp [prepareSessionStep, hempty]
  rw [hp]
  refine ⟨rfl, ?_, rfl, rfl, rfl, rfl, ?_⟩
  · rw [hst, hempty]
    exact SessionStep.emptyClose
  · intro n hn
    simp only [List.mem_singleton] at hn
    subst hn
    rfl

/-- Witness for C3 on a concrete empty Joinable session. -/
theorem emptySession_shortCircuit_witness :
    (prepareSessionStep sampleLeague sampleLookup
        { leagueID := "L", startDate := 1000, status := MatchSessionStatus.joinable, playerIDs := [] } 0).1
        = MatchSessionStatus.closed ∧
      SessionStep
        ({ leagueID := "L", startDate := 1000, status := MatchSessionStatus.joinable, playerIDs := [] } : MatchSession).status
        ({ leagueID := "L", startDate := 1000, status := MatchSessionStatus.joinable, playerIDs := [] } : MatchSession).playerIDs
        (prepareSessionStep sampleLeague sampleLookup
          { leagueID := "L", startDate := 1000, status := MatchSessionStatus.joinable, playerIDs := [] } 0).1 ∧
      (prepareSessionStep sampleLeague sampleLookup
          { leagueID := "L", startDate := 1000, status := MatchSessionStatus.joinable, playerIDs := [] } 0).2
        = [sendMatchSessionEmptyNotification sampleLeague] ∧
      (sendMatchSessionEmptyNotification sampleLeague).recipientType = NotificationRecipientType.discordChannel ∧
      (sendMatchSessionEmptyNotification sampleLeague).recipient = sampleLeague.announceDiscordChannelID ∧
      (sendMatchSessionEmptyNotification sampleLeague).type = NotificationType.matchSessionEmpty ∧
      (∀ n ∈ (prepareSessionStep sampleLeague sampleLookup
          { leagueID := "L", startDate := 1000, status := MatchSessionStatus.joinable, playerIDs := [] } 0).2,
        n.type = NotificationType.matchSessionEmpty) :=
  emptySession_shortCircuit sampleLeague sampleLookup
    { leagueID := "L", startDate := 1000, status := MatchSessionStatus.joinable, playerIDs := [] } 0
    rfl rfl

/-- C4: for a Match whose two entries are both terminal: if both are Finished,
the entry with the shorter completed time is Win and the other Loss; if exactly
one is Forfeit, that entry is Loss and the other Win; if both are Forfeit, both
outcomes are Draw. -/
theorem deriveOutcomes_terminal (e1 e2 : MatchEntry)
    (_h1 : e1.status.isTerminal = true) (_h2 : e2.status.isTerminal = true) :
    (e1.status = MatchEntryStatus.finished → e2.status = MatchEntryStatus.finished →
        raceDuration e1 < raceDuration e2 →
        deriveOutcomes e1 e2 = (MatchEntryOutcome.win, MatchEntryOutcome.loss)) ∧
      (e1.status = MatchEntryStatus.finished → e2.status = MatchEntryStatus.finished →
        raceDuration e2 < raceDuration e1 →
        deriveOutcomes e1 e2 = (MatchEntryOutcome.loss, MatchEntryOutcome.win)) ∧
      (e1.status = MatchEntryStatus.forfeit → e2.status ≠ MatchEntryStatus.forfeit →
        deriveOutcomes e1 e2 = (MatchEntryOutcome.loss, MatchEntryOutcome.win)) ∧
      (e2.status = MatchEntryStatus.forfeit → e1.status ≠ MatchEntryStatus.forfeit →
        deriveOutcomes e1 e2 = (MatchEntryOutcome.win, MatchEntryOutcome.loss)) ∧
      (e1.status = MatchEntryStatus.forfeit → e2.status = MatchEntryStatus.forfeit →
        deriveOutcomes e1 e2 = (MatchEntryOutcome.draw, MatchEntryOutcome.draw)) := by
  refine ⟨?_, ?_, ?_, ?_, ?_⟩
  · intro hf1 hf2 hlt
    simp [deriveOutcomes, hf1, hf2, hlt]
  · intro hf1 hf2 hlt
    have hnlt : ¬ raceDuration e1 < raceDuration e2 := by omega
    simp [deriveOutcomes, hf1, hf2, hlt, hnlt]
  · intro ha hb
    simp [deriveOutcomes, ha, hb]
  · intro ha hb
    simp [deriveOutcomes, ha, hb]
  · intro ha hb
    simp [deriveOutcomes, ha, hb]

/-- Witness for C4 on a concrete pair of finished entries with times 100 and
200 seconds. -/
theorem deriveOutcomes_terminal_witness :
    (({ playerID := "A", status := MatchEntryStatus.finished, startedAt := 0, endedAt := 100 } : MatchEntry).status = MatchEntryStatus.finished →
        ({ playerID := "B", status := MatchEntryStatus.finished, startedAt := 0, endedAt := 200 } : MatchEntry).status = MatchEntryStatus.finished →
        raceDuration { playerID := "A", status := MatchEntryStatus.finished, startedAt := 0, endedAt := 100 }
          < raceDuration { playerID := "B", status := MatchEntryStatus.finished, startedAt := 0, endedAt := 200 } →
        deriveOutcomes
            { playerID := "A", status := MatchEntryStatus.finished, startedAt := 0, endedAt := 100 }
            { playerID := "B", status := MatchEntryStatus.finished, startedAt := 0, endedAt := 200 }
          = (MatchEntryOutcome.win, MatchEntryOutcome.loss)) ∧
      (({ playerID := "A", status := MatchEntryStatus.finished, startedAt := 0, endedAt := 100 } : MatchEntry).status = MatchEntryStatus.finished →
        ({ playerID := "B", status := MatchEntryStatus.finished, startedAt := 0, endedAt := 200 } : MatchEntry).status = MatchEntryStatus.finished →
        raceDuration { playerID := "B", status := MatchEntryStatus.finished, startedAt := 0, endedAt := 200 }
          < raceDuration { playerID := "A", status := MatchEntryStatus.finished, startedAt := 0, endedAt := 100 } →
        deriveOutcomes
            { playerID := "A", status := MatchEntryStatus.finished, startedAt := 0, endedAt := 100 }
            { playerID := "B", status := MatchEntryStatus.finished, startedAt := 0, endedAt := 200 }
          = (MatchEntryOutcome.loss, MatchEntryOutcome.win)) ∧
      (({ playerID := "A", status := MatchEntryStatus.finished, startedAt := 0, endedAt := 100 } : MatchEntry).status = MatchEntryStatus.forfeit →
        ({ playerID := "B", status := MatchEntryStatus.finished, startedAt := 0, endedAt := 200 } : MatchEntry).status ≠ MatchEntryStatus.forfeit →
        deriveOutcomes
            { playerID := "A", status := MatchEntryStatus.finished, startedAt := 0, endedAt := 100 }
            { playerID := "B", status := MatchEntryStatus.finished, startedAt := 0, endedAt := 200 }
          = (MatchEntryOutcome.loss, MatchEntryOutcome.win)) ∧
      (({ playerID := "B", status := MatchEntryStatus.finished, startedAt := 0, endedAt := 200 } : MatchEntry).status = MatchEntryStatus.forfeit →
        ({ playerID := "A", status := MatchEntryStatus.finished, startedAt := 0, endedAt := 100 } : MatchEntry).status ≠ MatchEntryStatus.forfeit →
        deriveOutcomes
            { playerID := "A", status := MatchEntryStatus.finished, startedAt := 0, endedAt := 100 }
            { playerID := "B", status := MatchEntryStatus.finished, startedAt := 0, endedAt := 200 }
          = (MatchEntryOutcome.win, MatchEntryOutcome.loss)) ∧
      (({ playerID := "A", status := MatchEntryStatus.finished, startedAt := 0, endedAt := 100 } : MatchEntry).status = MatchEntryStatus.forfeit →
        ({ playerID := "B", status := MatchEntryStatus.finished, startedAt := 0, endedAt := 200 } : MatchEntry).status = MatchEntryStatus.forfeit →
        deriveOutcomes
            { playerID := "A", status := MatchEntryStatus.finished, startedAt := 0, endedAt := 100 }
            { playerID := "B", status := MatchEntryStatus.finished, startedAt := 0, endedAt := 200 }
          = (MatchEntryOutcome.draw, MatchEntryOutcome.draw)) :=
  deriveOutcomes_terminal
    { playerID := "A", status := MatchEntryStatus.finished, startedAt := 0, endedAt := 100 }
    { playerID := "B", status := MatchEntryStatus.finished, startedAt := 0, endedAt := 200 }
    (by decide) (by decide)

/-- C5: GetLeaderboardForLeague is sorted in descending order of the key
rating − 2×deviation, and a player appears in the result iff they appear in the
input with deviation strictly below the threshold. -/
theorem getLeaderboardForLeague_sorted_filtered (players : List LeaderboardEntry) (threshold : Rat) :
    List.Sorted lbDescending (GetLeaderboardForLeague players threshold) ∧
      ∀ p : LeaderboardEntry,
        p ∈ GetLeaderboardForLeague players threshold ↔ p ∈ players ∧ p.deviation < threshold := by
  constructor
  · exact List.sorted_insertionSort lbDescending _
  · intro p
    rw [GetLeaderboardForLeague, (List.perm_insertionSort lbDescending _).mem_iff]
    simp [List.mem_filter]

/-- C6 fails on the code: the countdown announcement built by
sendSessionCountdownNotification for this concrete league and session carries
the session-status-update kind, not the distinct countdown kind. -/
theorem countdown_kind_counterexample :
    ¬ ((sendSessionCountdownNotification sampleLeague
          { leagueID := "L", startDate := 1000, status := MatchSessionStatus.joinable, playerIDs := [] } 0).type
        = NotificationType.matchSessionCountdown) := by
  decide

/-- C6 amended: every countdown announcement carries the session-status-update
kind; the countdown kind exists in the enumeration but is not attached to the
countdown announcement, and NotificationTypeName maps it to "invalid". -/
theorem countdown_carries_statusUpdate_kind (league : League) (session : MatchSession) (now : Int) :
    (sendSessionCountdownNotification league session now).type
        = NotificationType.matchSessionStatusUpdate ∧
      NotificationTypeName NotificationType.matchSessionCountdown = "invalid" :=
  ⟨rfl, rfl⟩

/-- C7: when dispatch returns an error, the reply holds the generic failure line
plus the detailed error line iff the error is public or the caller is an
administrator; every other caller gets exactly the generic failure line. -/
theorem error_detail_iff_public_or_admin (err : BotError) (isAdmin : Bool) (out : WriterState) :
    ((createWriterAndDispatch (some err) isAdmin out).lines
        = [genericErrorLine, errorDetailLine err] ↔ (err.isPublic = true ∨ isAdmin = true)) ∧
      ((createWriterAndDispatch (some err) isAdmin out).lines
        = [genericErrorLine] ↔ ¬(err.isPublic = true ∨ isAdmin = true)) := by
  cases hp : err.isPublic <;> cases ha : isAdmin <;>
    simp [createWriterAndDispatch, hp, ha]

/-- C8: a panic raised inside the invoked command handler is recovered within
dispatch: the result is the reset reply buffer holding only the generic failure
line, with no error returned, so no panic reaches the serving loop. -/
theorem dispatch_recovers_panic (h : WriterState → HandlerResult) (w : WriterState)
    (content : String) (msg : String) (hp : h w = HandlerResult.panicked msg) :
    dispatch false (some h) w content
      = ({ lines := ["Someting went very wrong."] }, none) := by
  simp [dispatch, hp]

/-- Witness for C8 on a concrete always-panicking handler. -/
theorem dispatch_recovers_panic_witness :
    dispatch false (some (fun _ => HandlerResult.panicked "boom")) { lines := ["earlier output"] } "!join std"
      = ({ lines := ["Someting went very wrong."] }, none) :=
  dispatch_recovers_panic (fun _ => HandlerResult.panicked "boom") { lines := ["earlier output"] }
    "!join std" "boom" rfl

/-- C9: the preparation announcement carries the contestant count
len(PlayerIDs) − len(PlayerIDs) mod 2, which is even, equals the raw joined
count when that count is even, and is the raw count minus one — never the raw
odd count — when it is odd. -/
theorem preparing_announced_count (league : League) (session : MatchSession) (now : Int)
    (hst : session.status = MatchSessionStatus.preparing) :
    BodyPiece.nat (session.playerIDs.length - session.playerIDs.length % 2)
        ∈ (sendSessionStatusUpdateNotification league session now).body ∧
      (session.playerIDs.length - session.playerIDs.length % 2) % 2 = 0 ∧
      (session.playerIDs.length % 2 = 0 →
        session.playerIDs.length - session.playerIDs.length % 2 = session.playerIDs.length) ∧
      (session.playerIDs.length % 2 = 1 →
        session.playerIDs.length - session.playerIDs.length % 2 = session.playerIDs.length - 1 ∧
          session.playerIDs.length - session.playerIDs.length % 2 ≠ session.playerIDs.length) := by
  refine ⟨?_, by omega, by omega, by omega⟩
  simp [sendSessionStatusUpdateNotification, hst]

/-- Witness for C9 on a concrete Preparing session with three joined players. -/
theorem preparing_announced_count_witness :
    BodyPiece.nat
        (({ leagueID := "L", startDate := 1000, status := MatchSessionStatus.preparing, playerIDs := ["A", "B", "C"] } : MatchSession).playerIDs.length
          - ({ leagueID := "L", startDate := 1000, status := MatchSessionStatus.preparing, playerIDs := ["A", "B", "C"] } : MatchSession).playerIDs.length % 2)
        ∈ (sendSessionStatusUpdateNotification sampleLeague
            { leagueID := "L", startDate := 1000, status := MatchSessionStatus.preparing, playerIDs := ["A", "B", "C"] } 0).body ∧
      (({ leagueID := "L", startDate := 1000, status := MatchSessionStatus.preparing, playerIDs := ["A", "B", "C"] } : MatchSession).playerIDs.length
          - ({ leagueID := "L", startDate := 1000, status := MatchSessionStatus.preparing, playerIDs := ["A", "B", "C"] } : MatchSession).playerIDs.length % 2) % 2 = 0 ∧
      (({ leagueID := "L", startDate := 1000, status := MatchSessionStatus.preparing, playerIDs := ["A", "B", "C"] } : MatchSession).playerIDs.length % 2 = 0 →
        ({ leagueID := "L", startDate := 1000, status := MatchSessionStatus.preparing, playerIDs := ["A", "B", "C"] } : MatchSession).playerIDs.length
          - ({ leagueID := "L", startDate := 1000, status := MatchSessionStatus.preparing, playerIDs := ["A", "B", "C"] } : MatchSession).playerIDs.length % 2
          = ({ leagueID := "L", startDate := 1000, status := MatchSessionStatus.preparing, playerIDs := ["A", "B", "C"] } : MatchSession).playerIDs.length) ∧
      (({ leagueID := "L", startDate := 1000, status := MatchSessionStatus.preparing, playerIDs := ["A", "B", "C"] } : MatchSession).playerIDs.length % 2 = 1 →
        ({ leagueID := "L", startDate := 1000, status := MatchSessionStatus.preparing, playerIDs := ["A", "B", "C"] } : MatchSession).playerIDs.length
            - ({ leagueID := "L", startDate := 1000, status := MatchSessionStatus.preparing, playerIDs := ["A", "B", "C"] } : MatchSession).playerIDs.length % 2
            = ({ leagueID := "L", startDate := 1000, status := MatchSessionStatus.preparing, playerIDs := ["A", "B", "C"] } : MatchSession).playerIDs.length - 1 ∧
          ({ leagueID := "L", startDate := 1000, status := MatchSessionStatus.preparing, playerIDs := ["A", "B", "C"] } : MatchSession).playerIDs.length
              - ({ leagueID := "L", startDate := 1000, status := MatchSessionStatus.preparing, playerIDs := ["A", "B", "C"] } : MatchSession).playerIDs.length % 2
            ≠ ({ leagueID := "L", startDate := 1000, status := MatchSessionStatus.preparing, playerIDs := ["A", "B", "C"] } : MatchSession).playerIDs.length) :=
  preparing_announced_count sampleLeague
    { leagueID := "L", startDate := 1000, status := MatchSessionStatus.preparing, playerIDs := ["A", "B", "C"] } 0 rfl

/-- C10: getStdTop20 returns at most 20 rows; when the back end returned more
than 20 rows the result is exactly the first 20 in unchanged order, otherwise
the leaderboard is returned unchanged. -/
theorem getStdTop20_truncates (leaderboard : List LeaderboardEntry) :
    (getStdTop20 leaderboard).length ≤ 20 ∧
      (leaderboard.length > 20 → getStdTop20 leaderboard = leaderboard.take 20) ∧
      (leaderboard.length ≤ 20 → getStdTop20 leaderboard = leaderboard) := by
  by_cases h : leaderboard.length > 20
  · refine ⟨?_, fun _ => ?_, fun hle => absurd h (by omega)⟩
    · simp only [getStdTop20, if_pos h, List.length_take]
      omega
    · simp [getStdTop20, h]
  · refine ⟨?_, fun hgt => absurd hgt h, fun _ => ?_⟩
    · simp only [getStdTop20, if_neg h]
      omega
    · simp [getStdTop20, h]

/-- Witness for C10 on the empty leaderboard. -/
theorem getStdTop20_truncates_witness :
    (getStdTop20 []).length ≤ 20 ∧
      (([] : List LeaderboardEntry).length > 20 → getStdTop20 [] = List.take 20 []) ∧
      (([] : List LeaderboardEntry).length ≤ 20 → getStdTop20 [] = []) :=
  getStdTop20_truncates []

end Kaepora
